import Mathlib

/-!
Shallow embedding of the member-message Q&A service (`src/main.py`).

The program has two core functions:

* `fetch_all_messages` — paginated retrieval of all messages from a remote
  HTTP endpoint, with a process-wide time-based cache
  (`_messages_cache`, `_cache_timestamp`, TTL 300 s);
* `answer_question` — formats messages into a textual context, truncates it
  to 100 000 characters, builds a prompt and submits it to a chat-completion
  service.

The network is modelled as an oracle `Req → Except String PageResponse`:
`Except.error e` stands for any `requests.exceptions.RequestException`
raised by the request (connection/timeout errors as well as the
`HTTPError` raised by `raise_for_status` on a non-success status), with
`e` standing for `str(exception)`.  The completion service is likewise an
oracle `ChatRequest → Except String String`.  Python strings are modelled
as Lean `String`s, with slicing acting on the code-point list `String.data`
(Python slices strings by code point).  `time.time()` is modelled as a
`Nat` number of seconds; note that for the only use made of it —
`time.time() - _cache_timestamp < CACHE_TTL` — truncated `Nat` subtraction
agrees with Python float subtraction whenever the clock did not move
backwards, and both sides treat a backwards clock as a cache hit.

Functions return, besides the value the Python code returns, the list of
network requests issued (in order), so that claims about which requests are
made are statable.  The unbounded `while True:` pagination loop is given a
fuel parameter; `none` means the fuel ran out before the loop exited, and
every claim is stated for executions where the loop did exit.
-/

namespace MemberQA

/-- A member message record (a JSON object); each field may be absent,
mirroring `msg.get(...)` with defaults in `answer_question`. -/
structure Msg where
  user_name : Option String
  timestamp : Option String
  message : Option String
deriving DecidableEq, Repr

/-- A JSON body returned by the messages endpoint: `data.get("items", [])`
and `data.get("total", 0)` read these two optional fields. -/
structure PageResponse where
  items : Option (List Msg)
  total : Option Nat
deriving DecidableEq, Repr

/-- A request to the messages endpoint: either parameterized with
`params = {page, page_size}` or unparameterized (the fallback). -/
inductive Req where
  | paged (page : Nat) (page_size : Nat)
  | plain
deriving DecidableEq, Repr

/-- The process-wide cache: `_messages_cache` (None at start) and
`_cache_timestamp`. -/
structure CacheState where
  cache : Option (List Msg)
  timestamp : Nat
deriving DecidableEq, Repr

/-- `CACHE_TTL = 300` seconds. -/
def CACHE_TTL : Nat := 300

/-- The `while True:` pagination loop of `fetch_all_messages`, starting at
`page` with accumulator `acc` (`all_messages`).  Returns the requests
issued together with either the resulting message list or the
`RequestException` the Python code would propagate (a failure of the
unparameterized fallback request).  `none` = fuel exhausted. -/
def sweepStep (src : Req → Except String PageResponse) :
    Nat → Nat → List Msg → Option (List Req × Except String (List Msg))
  | 0, _, _ => none
  | fuel + 1, page, acc =>
    match src (Req.paged page 100) with
    | Except.ok data =>
      let items := data.items.getD []
      if items = [] then
        some ([Req.paged page 100], Except.ok acc)
      else
        let acc2 := acc ++ items
        if data.total.getD 0 ≤ acc2.length then
          some ([Req.paged page 100], Except.ok acc2)
        else
          match sweepStep src fuel (page + 1) acc2 with
          | none => none
          | some (log, r) => some (Req.paged page 100 :: log, r)
    | Except.error _ =>
      if page = 1 then
        match src Req.plain with
        | Except.ok data =>
          some ([Req.paged page 100, Req.plain], Except.ok (data.items.getD []))
        | Except.error e =>
          some ([Req.paged page 100, Req.plain], Except.error e)
      else
        some ([Req.paged page 100], Except.ok acc)

/-- The body of `fetch_all_messages` past the cache check: run the sweep
from page 1 with empty accumulator, then (lines 86-88) overwrite the cache
with the result and stamp it `now` — unless an exception propagates, in
which case the cache is left untouched. -/
def runSweep (src : Req → Except String PageResponse) (fuel now : Nat)
    (st : CacheState) : Option (List Req × Except String (List Msg) × CacheState) :=
  match sweepStep src fuel 1 [] with
  | none => none
  | some (log, Except.ok msgs) => some (log, Except.ok msgs, ⟨some msgs, now⟩)
  | some (log, Except.error e) => some (log, Except.error e, st)

/-- `fetch_all_messages(use_cache)`: if `use_cache` and `_messages_cache is
not None` and `time.time() - _cache_timestamp < CACHE_TTL`, return the
cached list with no network access; otherwise run a fresh sweep. -/
def fetch_all_messages (src : Req → Except String PageResponse) (fuel : Nat)
    (use_cache : Bool) (now : Nat) (st : CacheState) :
    Option (List Req × Except String (List Msg) × CacheState) :=
  match st.cache with
  | some cached =>
    if use_cache = true ∧ now - st.timestamp < CACHE_TTL then
      some ([], Except.ok cached, st)
    else
      runSweep src fuel now st
  | none => runSweep src fuel now st

/-! Second component: the answer synthesizer (`answer_question`). -/

/-- The fixed string returned when no OpenAI API key was configured
(`client` is falsy), line 98. -/
def API_KEY_ERROR : String :=
  "Error: OpenAI API key is not configured. Please set your OPENAI_API_KEY in the .env file or as an environment variable. See README.md for setup instructions."

/-- Line 106: a message block
`f"User: {user_name} ({timestamp})\nMessage: {message}"`, with `.get`
defaults `'Unknown'`, `''`, `''`. -/
def formatMsg (m : Msg) : String :=
  "User: " ++ m.user_name.getD "Unknown" ++ " (" ++ m.timestamp.getD "" ++ ")\nMessage: "
    ++ m.message.getD ""

/-- Line 108: `context = "\n\n".join(context_parts)`. -/
def joinContext (messages : List Msg) : String :=
  String.intercalate "\n\n" (messages.map formatMsg)

/-- `max_context_length = 100000` (line 113). -/
def MAX_CONTEXT_LENGTH : Nat := 100000

/-- The literal appended on truncation (line 116). -/
def TRUNCATION_MARKER : String := "\n\n[Earlier messages truncated...]"

/-- Python `s[-n:]` on a string: the last `min n (len s)` code points. -/
def pySliceLast (s : String) (n : Nat) : String :=
  ⟨s.data.drop (s.data.length - n)⟩

/-- Lines 114-116: `if len(context) > max_context_length: context =
context[-max_context_length:] + "\n\n[Earlier messages truncated...]"`. -/
def truncateContext (context : String) : String :=
  if MAX_CONTEXT_LENGTH < context.data.length then
    pySliceLast context MAX_CONTEXT_LENGTH ++ TRUNCATION_MARKER
  else context

/-- The prompt text before the interpolated context (line 118-122). -/
def PROMPT_PRE : String :=
  "You are a helpful assistant that answers questions about member data from messages.\n\nHere are the messages from various members:\n\n"

/-- The prompt text between the context and the question (lines 124-135);
apostrophes are written `\x27`. -/
def PROMPT_MID : String :=
  "\n\nBased on the messages above, answer the following question. \n\nIMPORTANT INSTRUCTIONS:\n- Provide a concise, natural answer without explicitly citing messages or using \"Message:\" format\n- Write in a flowing, conversational style\n- If the exact information is not available in the messages, say \"I don\x27t have that information in the available messages.\"\n- If there is related information (e.g., mentions of car services but not car ownership), you can mention what related information exists\n- Be specific but brief - avoid repeating message content verbatim\n- If asking about quantities or ownership that isn\x27t mentioned, clearly state that information is not available\n- Keep answers under 3-4 sentences when possible\n\nQuestion: "

/-- The prompt text after the question (lines 135-137). -/
def PROMPT_POST : String := "\n\nAnswer:"

/-- The full f-string prompt of lines 118-137. -/
def buildPrompt (context question : String) : String :=
  PROMPT_PRE ++ context ++ PROMPT_MID ++ question ++ PROMPT_POST

/-- The fixed system message of line 143. -/
def SYSTEM_MESSAGE : String :=
  "You are a helpful assistant that answers questions based on provided context. Provide concise, natural answers without explicitly citing messages. Write in a conversational style."

/-- One call to `client.chat.completions.create` (lines 140-148):
model, system message, user message, temperature (as an exact rational,
`0.3 = 3/10`) and `max_tokens`. -/
structure ChatRequest where
  model : String
  system : String
  user : String
  temperature : Rat
  max_tokens : Nat
deriving DecidableEq, Repr

/-- The completion request `answer_question` submits for a given question
and message list (lines 100-148). -/
def buildRequest (question : String) (messages : List Msg) : ChatRequest :=
  ⟨"gpt-4o-mini", SYSTEM_MESSAGE,
    buildPrompt (truncateContext (joinContext messages)) question, 3 / 10, 300⟩

/-- `answer_question(question, messages)`.  `client` is whether the OpenAI
client was initialized at startup; `svc` is the completion-service oracle
(`Except.error e` covers any exception raised by the call or by reading
`response.choices[0].message.content`, with `e` = `str(exception)`).
Returns the list of completion requests issued together with the returned
string; the function is total — it never raises. -/
def answer_question (client : Bool) (svc : ChatRequest → Except String String)
    (question : String) (messages : List Msg) : List ChatRequest × String :=
  if client = false then
    ([], API_KEY_ERROR)
  else
    let req := buildRequest question messages
    match svc req with
    | Except.ok content => ([req], content.trim)
    | Except.error e => ([req], "Error processing question: " ++ e)

/-! The HTTP handler (`ask_question`, POST /ask). -/

/-- Outcome of the `/ask` handler: a 200 answer body, or an
`HTTPException` with a status code and detail string. -/
inductive AskResult where
  | ok (answer : String)
  | httpError (status : Nat) (detail : String)
deriving DecidableEq, Repr

/-- `str(HTTPException(status, detail))` (Starlette renders it as
`"{status_code}: {detail}"`). -/
def httpExceptionText (status : Nat) (detail : String) : String :=
  toString status ++ ": " ++ detail

/-- The detail of the `HTTPException` raised on an empty fetch result
(line 188). -/
def FETCH_FAIL_DETAIL : String := "Failed to fetch messages from the API"

/-- The `/ask` handler (lines 180-198).  `fetch_all_messages()` runs with
its default `use_cache=True`.  A `RequestException` propagating out of the
fetch is caught by the first `except` clause (line 195); the
`HTTPException(500, ...)` raised on an empty result is itself an
`Exception`, so it is caught by the generic clause (line 197) and
re-wrapped with the `"Error processing question: "` prefix.  Returns the
result, the cache state after the call, the network requests issued and
the completion requests issued. -/
def ask_question (src : Req → Except String PageResponse) (fuel now : Nat)
    (st : CacheState) (client : Bool) (svc : ChatRequest → Except String String)
    (question : String) :
    Option (AskResult × CacheState × List Req × List ChatRequest) :=
  match fetch_all_messages src fuel true now st with
  | none => none
  | some (log, Except.error e, st2) =>
    some (AskResult.httpError 500 ("Error fetching messages: " ++ e), st2, log, [])
  | some (log, Except.ok msgs, st2) =>
    if msgs = [] then
      some (AskResult.httpError 500
        ("Error processing question: " ++ httpExceptionText 500 FETCH_FAIL_DETAIL),
        st2, log, [])
    else
      let r := answer_question client svc question msgs
      some (AskResult.ok r.2, st2, log, r.1)

/-! Concrete fixtures used by witnesses and counterexamples. -/

/-- A small concrete message. -/
def mW : Msg := ⟨some "alice", some "2024-01-01T00:00:00", some "hi there"⟩

/-- A source whose first paginated request fails and whose unparameterized
fallback succeeds with one item. -/
def srcFallbackOk : Req → Except String PageResponse
  | Req.paged _ _ => Except.error "timeout"
  | Req.plain => Except.ok ⟨some [mW], none⟩

/-- A source whose first paginated request and fallback request both fail. -/
def srcAllFail : Req → Except String PageResponse
  | Req.paged _ _ => Except.error "timeout"
  | Req.plain => Except.error "connection refused"

/-- A source whose first page reports one item and no `total` field. -/
def srcNoTotal : Req → Except String PageResponse
  | Req.paged 1 100 => Except.ok ⟨some [mW], none⟩
  | _ => Except.error "unused"

/-! Theorems about the embedded program. -/

/-- C8: with no completion-service credential configured, `answer_question`
returns the fixed configuration-instruction string and issues no completion
request, for every question, message list and service behavior. -/
theorem answer_question_no_credentials (svc : ChatRequest → Except String String)
    (question : String) (messages : List Msg) :
    answer_question false svc question messages = ([], API_KEY_ERROR) := rfl

/-- C7: if the completion-service call (or the handling of its response)
raises any error `e`, `answer_question` returns the string
`"Error processing question: " ++ e`; being a total function, it never
propagates an exception. -/
theorem answer_question_error_containment (svc : ChatRequest → Except String String)
    (question : String) (messages : List Msg) (e : String)
    (h : svc (buildRequest question messages) = Except.error e) :
    answer_question true svc question messages =
      ([buildRequest question messages], "Error processing question: " ++ e) := by
  have hm : answer_question true svc question messages =
      match svc (buildRequest question messages) with
      | Except.ok content => ([buildRequest question messages], content.trim)
      | Except.error e => ([buildRequest question messages],
          "Error processing question: " ++ e) := rfl
  rw [hm, h]

/-- Witness for C7 at a concrete failing service. -/
theorem answer_question_error_containment_witness :
    (fun _ : ChatRequest => (Except.error "boom" : Except String String))
        (buildRequest "who is alice?" [mW]) = Except.error "boom" ∧
    answer_question true (fun _ => Except.error "boom") "who is alice?" [mW] =
      ([buildRequest "who is alice?" [mW]], "Error processing question: " ++ "boom") :=
  ⟨rfl, answer_question_error_containment _ "who is alice?" [mW] "boom" rfl⟩

/-- C4: if the very first paginated request raises a transport error and the
unparameterized fallback succeeds, the request log is exactly
`[paged 1 100, plain]` — one fallback request, no further paginated
requests — and the fallback response's `items` (or `[]` when absent)
becomes the complete result, which is also cached. -/
theorem fetch_first_page_fallback (src : Req → Except String PageResponse)
    (fuel now ts : Nat) (e : String) (d : PageResponse)
    (h1 : src (Req.paged 1 100) = Except.error e)
    (h2 : src Req.plain = Except.ok d) :
    fetch_all_messages src (fuel + 1) true now ⟨none, ts⟩ =
      some ([Req.paged 1 100, Req.plain], Except.ok (d.items.getD []),
        ⟨some (d.items.getD []), now⟩) := by
  show runSweep src (fuel + 1) now ⟨none, ts⟩ = _
  unfold runSweep sweepStep
  rw [h1, h2]
  rfl

/-- Witness for C4 at a concrete source; the fallback body has no `total`
and one item, which becomes the whole result. -/
theorem fetch_first_page_fallback_witness :
    srcFallbackOk (Req.paged 1 100) = Except.error "timeout" ∧
    srcFallbackOk Req.plain = Except.ok ⟨some [mW], none⟩ ∧
    fetch_all_messages srcFallbackOk 1 true 50 ⟨none, 0⟩ =
      some ([Req.paged 1 100, Req.plain], Except.ok [mW], ⟨some [mW], 50⟩) :=
  ⟨rfl, rfl, fetch_first_page_fallback srcFallbackOk 0 50 0 "timeout" ⟨some [mW], none⟩ rfl rfl⟩

/-- C10: if the first paginated request fails with a transport error and the
unparameterized fallback itself fails (an exception, including the
`HTTPError` of a non-success status), `fetch_all_messages` propagates that
exception and the cache state is left completely unchanged. -/
theorem fetch_fallback_failure (src : Req → Except String PageResponse)
    (fuel now : Nat) (st : CacheState) (e1 e2 : String)
    (hc : st.cache = none)
    (h1 : src (Req.paged 1 100) = Except.error e1)
    (h2 : src Req.plain = Except.error e2) :
    fetch_all_messages src (fuel + 1) true now st =
      some ([Req.paged 1 100, Req.plain], Except.error e2, st) := by
  obtain ⟨c, ts⟩ := st
  simp only [CacheState.cache] at hc
  subst hc
  show runSweep src (fuel + 1) now ⟨none, ts⟩ = _
  unfold runSweep sweepStep
  rw [h1, h2]
  rfl

/-- Witness for C10 at a concrete source whose fallback also fails. -/
theorem fetch_fallback_failure_witness :
    (⟨none, 0⟩ : CacheState).cache = none ∧
    srcAllFail (Req.paged 1 100) = Except.error "timeout" ∧
    srcAllFail Req.plain = Except.error "connection refused" ∧
    fetch_all_messages srcAllFail 1 true 50 ⟨none, 0⟩ =
      some ([Req.paged 1 100, Req.plain], Except.error "connection refused", ⟨none, 0⟩) :=
  ⟨rfl, rfl, rfl,
    fetch_fallback_failure srcAllFail 0 50 ⟨none, 0⟩ "timeout" "connection refused" rfl rfl rfl⟩

/-- C9: a page body with no `total` field is read as `total = 0`, so the
`len(all_messages) >= total` check fires immediately: the sweep stops right
after that page with the accumulated items, and at the fetch level a
first-page response with non-empty items and no `total` yields exactly that
first page's items. -/
theorem fetch_missing_total :
    (∀ (src : Req → Except String PageResponse) (fuel page : Nat) (acc items : List Msg),
      items ≠ [] → src (Req.paged page 100) = Except.ok ⟨some items, none⟩ →
      sweepStep src (fuel + 1) page acc =
        some ([Req.paged page 100], Except.ok (acc ++ items)))
    ∧ (∀ (src : Req → Except String PageResponse) (fuel now ts : Nat) (items : List Msg),
      items ≠ [] → src (Req.paged 1 100) = Except.ok ⟨some items, none⟩ →
      fetch_all_messages src (fuel + 1) true now ⟨none, ts⟩ =
        some ([Req.paged 1 100], Except.ok items, ⟨some items, now⟩)) := by
  have step : ∀ (src : Req → Except String PageResponse) (fuel page : Nat) (acc items : List Msg),
      items ≠ [] → src (Req.paged page 100) = Except.ok ⟨some items, none⟩ →
      sweepStep src (fuel + 1) page acc =
        some ([Req.paged page 100], Except.ok (acc ++ items)) := by
    intro src fuel page acc items hne h
    unfold sweepStep
    rw [h]
    simp only [Option.getD_some, Option.getD_none]
    rw [if_neg hne, if_pos (Nat.zero_le _)]
  refine ⟨step, ?_⟩
  intro src fuel now ts items hne h
  show runSweep src (fuel + 1) now ⟨none, ts⟩ = _
  unfold runSweep
  rw [step src fuel 1 [] items hne h]
  rfl

/-- Witness for C9 at a concrete source whose page 1 has one item and no
`total`. -/
theorem fetch_missing_total_witness :
    ([mW] ≠ ([] : List Msg) ∧
      srcNoTotal (Req.paged 1 100) = Except.ok ⟨some [mW], none⟩ ∧
      sweepStep srcNoTotal 1 1 [] = some ([Req.paged 1 100], Except.ok [mW])) ∧
    (fetch_all_messages srcNoTotal 1 true 9 ⟨none, 0⟩ =
      some ([Req.paged 1 100], Except.ok [mW], ⟨some [mW], 9⟩)) :=
  ⟨⟨by simp, rfl, fetch_missing_total.1 srcNoTotal 0 1 [] [mW] (by simp) rfl⟩,
    fetch_missing_total.2 srcNoTotal 0 9 0 [mW] (by simp) rfl⟩

/-- A source that yields one item on page 1 (with `total = 5`) and a
transport error on page 2: a sweep that fails partway through its pages. -/
def srcPageTwoFails : Req → Except String PageResponse
  | Req.paged 1 100 => Except.ok ⟨some [mW], some 5⟩
  | Req.paged _ _ => Except.error "connection reset"
  | Req.plain => Except.error "unused"

/-- A source with one message available on page 1. -/
def srcAvail : Req → Except String PageResponse
  | Req.paged 1 100 => Except.ok ⟨some [mW], some 1⟩
  | _ => Except.error "unused"

/-- A source whose page 1 reports an empty item list. -/
def srcEmpty : Req → Except String PageResponse
  | Req.paged 1 100 => Except.ok ⟨some [], some 0⟩
  | _ => Except.error "unused"

/-- Helper: a completed `runSweep` either left the state unchanged (an
exception propagated before the cache-update lines) or stored exactly the
returned list with timestamp `now`. -/
theorem runSweep_state (src : Req → Except String PageResponse)
    (fuel now : Nat) (st : CacheState) (log : List Req)
    (r : Except String (List Msg)) (st2 : CacheState)
    (h : runSweep src fuel now st = some (log, r, st2)) :
    st2 = st ∨ ∃ msgs, r = Except.ok msgs ∧ st2 = ⟨some msgs, now⟩ := by
  unfold runSweep at h
  rcases hsw : sweepStep src fuel 1 [] with _ | ⟨log1, r1⟩
  · rw [hsw] at h
    cases h
  · rw [hsw] at h
    cases r1 with
    | ok msgs =>
      simp only [Option.some.injEq, Prod.mk.injEq] at h
      exact Or.inr ⟨msgs, h.2.1.symm, h.2.2.symm⟩
    | error e =>
      simp only [Option.some.injEq, Prod.mk.injEq] at h
      exact Or.inl h.2.2.symm

/-- C2 (amended): after any completed call to `fetch_all_messages`, the
cache state is either unchanged (cache hit, or an exception propagated) or
holds exactly the sequence the call returned — which may be a partial
accumulation when a transport error struck a page after the first. -/
theorem fetch_cache_update (src : Req → Except String PageResponse)
    (fuel : Nat) (uc : Bool) (now : Nat) (st : CacheState) (log : List Req)
    (r : Except String (List Msg)) (st2 : CacheState)
    (h : fetch_all_messages src fuel uc now st = some (log, r, st2)) :
    st2 = st ∨ ∃ msgs, r = Except.ok msgs ∧ st2 = ⟨some msgs, now⟩ := by
  unfold fetch_all_messages at h
  rcases hc : st.cache with _ | cached
  · rw [hc] at h
    exact runSweep_state src fuel now st log r st2 h
  · rw [hc] at h
    dsimp only at h
    by_cases hfresh : uc = true ∧ now - st.timestamp < CACHE_TTL
    · rw [if_pos hfresh] at h
      simp only [Option.some.injEq, Prod.mk.injEq] at h
      exact Or.inl h.2.2.symm
    · rw [if_neg hfresh] at h
      exact runSweep_state src fuel now st log r st2 h

/-- Witness for C2 (amended) at a concrete completed call. -/
theorem fetch_cache_update_witness :
    fetch_all_messages srcAvail 2 true 0 ⟨none, 0⟩ =
      some ([Req.paged 1 100], Except.ok [mW], ⟨some [mW], 0⟩) ∧
    ((⟨some [mW], 0⟩ : CacheState) = ⟨none, 0⟩ ∨
      ∃ msgs, (Except.ok [mW] : Except String (List Msg)) = Except.ok msgs ∧
        (⟨some [mW], 0⟩ : CacheState) = ⟨some msgs, 0⟩) :=
  ⟨rfl, fetch_cache_update srcAvail 2 true 0 ⟨none, 0⟩ [Req.paged 1 100]
    (Except.ok [mW]) ⟨some [mW], 0⟩ rfl⟩

/-- C2 (counterexample): a completed call against `srcPageTwoFails` — page 1
returns one item and announces `total = 5`, page 2 raises a transport
error — stores the partially accumulated one-element sequence in the cache,
so the cache does hold the result of a sweep that failed partway through
its pages. -/
theorem fetch_partial_sweep_cached_counterexample :
    fetch_all_messages srcPageTwoFails 10 true 0 ⟨none, 0⟩ =
      some ([Req.paged 1 100, Req.paged 2 100], Except.ok [mW], ⟨some [mW], 0⟩) ∧
    srcPageTwoFails (Req.paged 2 100) = Except.error "connection reset" ∧
    [mW].length < 5 :=
  ⟨rfl, rfl, by norm_num⟩

/-- C3: when the fetch step completes with an empty message sequence, the
`/ask` handler responds with HTTP 500 — the `HTTPException(500, "Failed to
fetch messages from the API")` is re-caught by the generic handler and
re-raised with status 500 and the fetch-failure text inside its detail —
and no completion request is issued. -/
theorem ask_question_empty_fetch (src : Req → Except String PageResponse)
    (fuel now : Nat) (st : CacheState) (client : Bool)
    (svc : ChatRequest → Except String String) (question : String)
    (log : List Req) (st2 : CacheState)
    (h : fetch_all_messages src fuel true now st = some (log, Except.ok [], st2)) :
    ask_question src fuel now st client svc question =
      some (AskResult.httpError 500
        "Error processing question: 500: Failed to fetch messages from the API",
        st2, log, []) := by
  unfold ask_question
  rw [h]
  rfl

/-- Witness for C3: a source whose single page is empty makes the handler
return 500 with no completion request. -/
theorem ask_question_empty_fetch_witness :
    fetch_all_messages srcEmpty 1 true 5 ⟨none, 0⟩ =
      some ([Req.paged 1 100], Except.ok [], ⟨some [], 5⟩) ∧
    ask_question srcEmpty 1 5 ⟨none, 0⟩ true (fun _ => Except.ok "fine") "any q" =
      some (AskResult.httpError 500
        "Error processing question: 500: Failed to fetch messages from the API",
        ⟨some [], 5⟩, [Req.paged 1 100], []) :=
  ⟨rfl, ask_question_empty_fetch srcEmpty 1 5 ⟨none, 0⟩ true
    (fun _ => Except.ok "fine") "any q" [Req.paged 1 100] ⟨some [], 5⟩ rfl⟩

/-- Helper: whenever one unfolding of the pagination loop produces a
result, the first request logged is the paginated request for the current
page with `page_size = 100`. -/
theorem sweepStep_head_paged (src : Req → Except String PageResponse)
    (fuel page : Nat) (acc : List Msg) (log : List Req)
    (r : Except String (List Msg))
    (h : sweepStep src (fuel + 1) page acc = some (log, r)) :
    log.head? = some (Req.paged page 100) := by
  unfold sweepStep at h
  cases hs : src (Req.paged page 100) with
  | ok d =>
    rw [hs] at h
    dsimp only at h
    by_cases hi : d.items.getD [] = []
    · rw [if_pos hi] at h
      simp only [Option.some.injEq, Prod.mk.injEq] at h
      rw [← h.1]
      rfl
    · rw [if_neg hi] at h
      by_cases ht : d.total.getD 0 ≤ (acc ++ d.items.getD []).length
      · rw [if_pos ht] at h
        simp only [Option.some.injEq, Prod.mk.injEq] at h
        rw [← h.1]
        rfl
      · rw [if_neg ht] at h
        rcases hr : sweepStep src fuel (page + 1) (acc ++ d.items.getD [])
          with _ | ⟨log1, r1⟩
        · rw [hr] at h
          cases h
        · rw [hr] at h
          simp only [Option.some.injEq, Prod.mk.injEq] at h
          rw [← h.1]
          rfl
  | error e =>
    rw [hs] at h
    dsimp only at h
    by_cases hp : page = 1
    · rw [if_pos hp] at h
      cases hq : src Req.plain with
      | ok d2 =>
        rw [hq] at h
        simp only [Option.some.injEq, Prod.mk.injEq] at h
        rw [← h.1]
        rfl
      | error e2 =>
        rw [hq] at h
        simp only [Option.some.injEq, Prod.mk.injEq] at h
        rw [← h.1]
        rfl
    · rw [if_neg hp] at h
      simp only [Option.some.injEq, Prod.mk.injEq] at h
      rw [← h.1]
      rfl

/-- C6 (amended): `fetch_all_messages(use_cache=true)` returns the cached
sequence with no network request exactly when the cache is populated — even
with an empty list, since the code tests `_messages_cache is not None`, not
non-emptiness — and younger than 300 seconds; if the cache is unpopulated
(`None`), or the age is at least 300 seconds, or `use_cache` is false, any
completed call performs a fresh pagination sweep whose first request is
page 1 with `page_size = 100`. -/
theorem fetch_cache_behavior :
    (∀ (src : Req → Except String PageResponse) (fuel now : Nat)
        (st : CacheState) (cached : List Msg),
      st.cache = some cached → now - st.timestamp < CACHE_TTL →
      fetch_all_messages src fuel true now st = some ([], Except.ok cached, st))
    ∧ (∀ (src : Req → Except String PageResponse) (uc : Bool) (fuel now : Nat)
        (st : CacheState) (log : List Req) (r : Except String (List Msg))
        (st2 : CacheState),
      (uc = false ∨ st.cache = none ∨ CACHE_TTL ≤ now - st.timestamp) →
      fetch_all_messages src (fuel + 1) uc now st = some (log, r, st2) →
      log.head? = some (Req.paged 1 100)) := by
  constructor
  · intro src fuel now st cached hc hfresh
    unfold fetch_all_messages
    rw [hc]
    dsimp only
    rw [if_pos ⟨rfl, hfresh⟩]
  · intro src uc fuel now st log r st2 hmiss h
    have hrun : runSweep src (fuel + 1) now st = some (log, r, st2) := by
      unfold fetch_all_messages at h
      rcases hc : st.cache with _ | cached
      · rw [hc] at h
        exact h
      · rw [hc] at h
        dsimp only at h
        have hcond : ¬(uc = true ∧ now - st.timestamp < CACHE_TTL) := by
          rintro ⟨huc, hlt⟩
          rcases hmiss with hfalse | hnone | httl
          · rw [huc] at hfalse
            cases hfalse
          · rw [hc] at hnone
            cases hnone
          · omega
        rw [if_neg hcond] at h
        exact h
    unfold runSweep at hrun
    rcases hsw : sweepStep src (fuel + 1) 1 [] with _ | ⟨log1, r1⟩
    · rw [hsw] at hrun
      cases hrun
    · rw [hsw] at hrun
      cases r1 with
      | ok msgs =>
        simp only [Option.some.injEq, Prod.mk.injEq] at hrun
        rw [← hrun.1]
        exact sweepStep_head_paged src fuel 1 [] log1 (Except.ok msgs) hsw
      | error e =>
        simp only [Option.some.injEq, Prod.mk.injEq] at hrun
        rw [← hrun.1]
        exact sweepStep_head_paged src fuel 1 [] log1 (Except.error e) hsw

/-- Witness for C6 (amended): a fresh populated cache is returned without
any request; an unpopulated cache triggers a sweep starting at page 1; and
`use_cache = false` triggers a sweep starting at page 1 even against a
fresh populated cache. -/
theorem fetch_cache_behavior_witness :
    ((⟨some [mW], 100⟩ : CacheState).cache = some [mW] ∧ 200 - 100 < CACHE_TTL ∧
      fetch_all_messages srcAvail 5 true 200 ⟨some [mW], 100⟩ =
        some ([], Except.ok [mW], ⟨some [mW], 100⟩)) ∧
    ((⟨none, 0⟩ : CacheState).cache = none ∧
      fetch_all_messages srcAvail 2 true 0 ⟨none, 0⟩ =
        some ([Req.paged 1 100], Except.ok [mW], ⟨some [mW], 0⟩) ∧
      ([Req.paged 1 100] : List Req).head? = some (Req.paged 1 100)) ∧
    ((false : Bool) = false ∧ 100 - 100 < CACHE_TTL ∧
      fetch_all_messages srcAvail 2 false 100 ⟨some [mW], 100⟩ =
        some ([Req.paged 1 100], Except.ok [mW], ⟨some [mW], 100⟩) ∧
      ([Req.paged 1 100] : List Req).head? = some (Req.paged 1 100)) :=
  ⟨⟨rfl, by norm_num [CACHE_TTL],
      fetch_cache_behavior.1 srcAvail 5 200 ⟨some [mW], 100⟩ [mW] rfl
        (by norm_num [CACHE_TTL])⟩,
    ⟨rfl, rfl,
      fetch_cache_behavior.2 srcAvail true 1 0 ⟨none, 0⟩ [Req.paged 1 100]
        (Except.ok [mW]) ⟨some [mW], 0⟩ (Or.inr (Or.inl rfl)) rfl⟩,
    ⟨rfl, by norm_num [CACHE_TTL], rfl,
      fetch_cache_behavior.2 srcAvail false 1 100 ⟨some [mW], 100⟩ [Req.paged 1 100]
        (Except.ok [mW]) ⟨some [mW], 100⟩ (Or.inl rfl) rfl⟩⟩

/-- C6 (counterexample): with a cached *empty* list only 100 seconds old,
`fetch_all_messages(use_cache=true)` returns the cached empty sequence with
no network request at all — no sweep from page 1 is performed — even though
the source has a message available on page 1; the code's cache-hit test is
`_messages_cache is not None`, not non-emptiness. -/
theorem fetch_cached_empty_counterexample :
    fetch_all_messages srcAvail 10 true 200 ⟨some [], 100⟩ =
      some ([], Except.ok [], ⟨some [], 100⟩) ∧
    srcAvail (Req.paged 1 100) = Except.ok ⟨some [mW], some 1⟩ :=
  ⟨rfl, rfl⟩

/-- Helper: the sweep stops with the accumulated result as soon as the
count reaches the response's `total`. -/
theorem sweepStep_stop_total (src : Req → Except String PageResponse)
    (fuel page : Nat) (acc : List Msg) (d : PageResponse)
    (h : src (Req.paged page 100) = Except.ok d)
    (hne : d.items.getD [] ≠ [])
    (hge : d.total.getD 0 ≤ (acc ++ d.items.getD []).length) :
    sweepStep src (fuel + 1) page acc =
      some ([Req.paged page 100], Except.ok (acc ++ d.items.getD [])) := by
  unfold sweepStep
  rw [h]
  dsimp only
  rw [if_neg hne, if_pos hge]

/-- Helper: with non-empty items and the count still below `total`, the
sweep continues to the next page, prepending the current request to the
log. -/
theorem sweepStep_continue (src : Req → Except String PageResponse)
    (fuel page : Nat) (acc : List Msg) (d : PageResponse)
    (h : src (Req.paged page 100) = Except.ok d)
    (hne : d.items.getD [] ≠ [])
    (hlt : (acc ++ d.items.getD []).length < d.total.getD 0) :
    sweepStep src (fuel + 1) page acc =
      (sweepStep src fuel (page + 1) (acc ++ d.items.getD [])).map
        (fun p => (Req.paged page 100 :: p.1, p.2)) := by
  conv_lhs => rw [sweepStep]
  rw [h]
  dsimp only
  rw [if_neg hne, if_neg (Nat.not_le.mpr hlt)]
  rcases hr : sweepStep src fuel (page + 1) (acc ++ d.items.getD []) with _ | ⟨log1, r1⟩
  · rfl
  · rfl

/-- C5: the sweep requests pages 1, 2, 3, ... with `page_size = 100`,
appends each page's items in page order, and continues exactly while the
items are non-empty and the count is below `total`; in particular a source
with `total = 250` and pages of 100, 100, 50 records is fetched with
requests for pages 1, 2, 3 (and no more), concatenated in page order. -/
theorem fetch_pagination_order :
    (∀ (src : Req → Except String PageResponse) (k now ts : Nat) (a b c : List Msg),
      a.length = 100 → b.length = 100 → c.length = 50 →
      src (Req.paged 1 100) = Except.ok ⟨some a, some 250⟩ →
      src (Req.paged 2 100) = Except.ok ⟨some b, some 250⟩ →
      src (Req.paged 3 100) = Except.ok ⟨some c, some 250⟩ →
      fetch_all_messages src (k + 3) true now ⟨none, ts⟩ =
        some ([Req.paged 1 100, Req.paged 2 100, Req.paged 3 100],
          Except.ok (a ++ b ++ c), ⟨some (a ++ b ++ c), now⟩))
    ∧ (∀ (src : Req → Except String PageResponse) (fuel page : Nat)
        (acc : List Msg) (d : PageResponse),
      src (Req.paged page 100) = Except.ok d →
      d.items.getD [] ≠ [] →
      (acc ++ d.items.getD []).length < d.total.getD 0 →
      sweepStep src (fuel + 1) page acc =
        (sweepStep src fuel (page + 1) (acc ++ d.items.getD [])).map
          (fun p => (Req.paged page 100 :: p.1, p.2))) := by
  refine ⟨?_, sweepStep_continue⟩
  intro src k now ts a b c ha hb hc h1 h2 h3
  have hane : a ≠ [] := by intro hx; rw [hx] at ha; simp at ha
  have hbne : b ≠ [] := by intro hx; rw [hx] at hb; simp at hb
  have hcne : c ≠ [] := by intro hx; rw [hx] at hc; simp at hc
  have s3 : sweepStep src (k + 1) 3 ([] ++ a ++ b) =
      some ([Req.paged 3 100], Except.ok ([] ++ a ++ b ++ c)) :=
    sweepStep_stop_total src k 3 ([] ++ a ++ b) ⟨some c, some 250⟩ h3 hcne
      (by simp [List.length_append, ha, hb, hc])
  have s2 : sweepStep src (k + 1 + 1) 2 ([] ++ a) =
      (sweepStep src (k + 1) 3 ([] ++ a ++ b)).map
        (fun p => (Req.paged 2 100 :: p.1, p.2)) :=
    sweepStep_continue src (k + 1) 2 ([] ++ a) ⟨some b, some 250⟩ h2 hbne
      (by simp [List.length_append, ha, hb])
  have s1 : sweepStep src (k + 1 + 1 + 1) 1 [] =
      (sweepStep src (k + 1 + 1) 2 ([] ++ a)).map
        (fun p => (Req.paged 1 100 :: p.1, p.2)) :=
    sweepStep_continue src (k + 1 + 1) 1 [] ⟨some a, some 250⟩ h1 hane
      (by simp [List.length_append, ha])
  show runSweep src (k + 3) now ⟨none, ts⟩ = _
  unfold runSweep
  rw [show k + 3 = k + 1 + 1 + 1 from rfl, s1, s2, s3]
  simp [List.append_assoc]

/-- A source serving pages of 100, 100 and 50 copies of `mW` with
`total = 250`. -/
def srcPages : Req → Except String PageResponse
  | Req.paged 1 100 => Except.ok ⟨some (List.replicate 100 mW), some 250⟩
  | Req.paged 2 100 => Except.ok ⟨some (List.replicate 100 mW), some 250⟩
  | Req.paged 3 100 => Except.ok ⟨some (List.replicate 50 mW), some 250⟩
  | _ => Except.error "unused"

/-- Witness for C5: the `total = 250` scenario at concrete page contents,
and one concrete continuation step. -/
theorem fetch_pagination_order_witness :
    ((List.replicate 100 mW).length = 100 ∧ (List.replicate 50 mW).length = 50 ∧
      srcPages (Req.paged 1 100) =
        Except.ok ⟨some (List.replicate 100 mW), some 250⟩ ∧
      srcPages (Req.paged 2 100) =
        Except.ok ⟨some (List.replicate 100 mW), some 250⟩ ∧
      srcPages (Req.paged 3 100) =
        Except.ok ⟨some (List.replicate 50 mW), some 250⟩ ∧
      fetch_all_messages srcPages 3 true 7 ⟨none, 0⟩ =
        some ([Req.paged 1 100, Req.paged 2 100, Req.paged 3 100],
          Except.ok (List.replicate 100 mW ++ List.replicate 100 mW
            ++ List.replicate 50 mW),
          ⟨some (List.replicate 100 mW ++ List.replicate 100 mW
            ++ List.replicate 50 mW), 7⟩)) ∧
    (List.replicate 100 mW ≠ [] ∧
      (([] : List Msg) ++ List.replicate 100 mW).length < 250 ∧
      sweepStep srcPages 2 1 [] =
        (sweepStep srcPages 1 2 ([] ++ List.replicate 100 mW)).map
          (fun p => (Req.paged 1 100 :: p.1, p.2))) :=
  ⟨⟨by simp, by simp, rfl, rfl, rfl,
      fetch_pagination_order.1 srcPages 0 7 0 _ _ _ (by simp) (by simp) (by simp)
        rfl rfl rfl⟩,
    ⟨by simp, by simp,
      fetch_pagination_order.2 srcPages 1 1 [] ⟨some (List.replicate 100 mW), some 250⟩
        rfl (by simp) (by simp)⟩⟩

/-- A 100 001-character message body, long enough to force truncation. -/
def bigStr : String := ⟨List.replicate 100001 'x'⟩

/-- A message whose formatted block exceeds 100 000 characters. -/
def bigMsg : Msg := ⟨some "u", some "t", some bigStr⟩

/-- A completion service that always succeeds. -/
def svcOkW : ChatRequest → Except String String := fun _ => Except.ok " fine "

/-- Helper: with a configured client, `answer_question` reduces to a match
on the completion-service response for the built request. -/
theorem answer_question_true_eq (svc : ChatRequest → Except String String)
    (question : String) (messages : List Msg) :
    answer_question true svc question messages =
      match svc (buildRequest question messages) with
      | Except.ok content => ([buildRequest question messages], content.trim)
      | Except.error e => ([buildRequest question messages],
          "Error processing question: " ++ e) := rfl

/-- Helper: whatever the completion service answers, the user content of
the single submitted request is the prompt built from the truncated
context. -/
theorem answer_question_user (svc : ChatRequest → Except String String)
    (question : String) (messages : List Msg) :
    (answer_question true svc question messages).1.map ChatRequest.user =
      [buildPrompt (truncateContext (joinContext messages)) question] := by
  rw [answer_question_true_eq]
  rcases svc (buildRequest question messages) with e | c
  · rfl
  · rfl

/-- Helper: over the threshold, the code keeps the last 100 000 characters
and appends the marker after them. -/
theorem truncateContext_long (s : String)
    (h : MAX_CONTEXT_LENGTH < s.data.length) :
    truncateContext s = pySliceLast s MAX_CONTEXT_LENGTH ++ TRUNCATION_MARKER := by
  unfold truncateContext
  rw [if_pos h]

/-- Helper: at or under the threshold the context is left unmodified. -/
theorem truncateContext_short (s : String)
    (h : s.data.length ≤ MAX_CONTEXT_LENGTH) :
    truncateContext s = s := by
  unfold truncateContext
  rw [if_neg (Nat.not_lt.mpr h)]

/-- Helper: the joined context of the single big message. -/
theorem joinContext_bigMsg :
    joinContext [bigMsg] = "User: u (t)\nMessage: " ++ bigStr := rfl

/-- Helper: that context as a character list. -/
theorem joinContext_bigMsg_data :
    (joinContext [bigMsg]).data =
      "User: u (t)\nMessage: ".data ++ List.replicate 100001 'x' := by
  rw [joinContext_bigMsg, String.data_append]
  rfl

/-- Helper: the big context has 100 022 characters. -/
theorem joinContext_bigMsg_len : (joinContext [bigMsg]).data.length = 100022 := by
  rw [joinContext_bigMsg_data, List.length_append, List.length_replicate]
  rfl

/-- Helper: Python slicing `s[-n:]` at the character-list level. -/
theorem pySliceLast_data (s : String) (n : Nat) :
    (pySliceLast s n).data = s.data.drop (s.data.length - n) := rfl

/-- Helper: the kept slice of the big context is 100 000 copies of `x`. -/
theorem kept_bigMsg_data :
    (pySliceLast (joinContext [bigMsg]) MAX_CONTEXT_LENGTH).data =
      List.replicate 100000 'x' := by
  rw [pySliceLast_data, joinContext_bigMsg_len, joinContext_bigMsg_data]
  rw [show (100022 - MAX_CONTEXT_LENGTH : Nat) = 21 + 1 from rfl]
  rw [← List.drop_drop,
    List.drop_left' (show ("User: u (t)\nMessage: ".data).length = 21 from rfl),
    List.drop_replicate]

/-- C1 (amended): when the joined context exceeds 100 000 characters, the
single prompt `answer_question` submits embeds exactly the last 100 000
characters of the context with the literal truncation marker appended
*after* (not before) them, and nothing more of the original context; a
context of at most 100 000 characters is embedded unmodified with no
marker. -/
theorem answer_question_truncation (svc : ChatRequest → Except String String)
    (question : String) (messages : List Msg) :
    (MAX_CONTEXT_LENGTH < (joinContext messages).data.length →
      (answer_question true svc question messages).1.map ChatRequest.user =
        [buildPrompt (pySliceLast (joinContext messages) MAX_CONTEXT_LENGTH
          ++ TRUNCATION_MARKER) question])
    ∧ ((joinContext messages).data.length ≤ MAX_CONTEXT_LENGTH →
      (answer_question true svc question messages).1.map ChatRequest.user =
        [buildPrompt (joinContext messages) question]) := by
  constructor
  · intro h
    rw [answer_question_user, truncateContext_long _ h]
  · intro h
    rw [answer_question_user, truncateContext_short _ h]

/-- Witness for C1 (amended): a 100 022-character context is truncated, a
short one is passed through. -/
theorem answer_question_truncation_witness :
    (MAX_CONTEXT_LENGTH < (joinContext [bigMsg]).data.length ∧
      (answer_question true svcOkW "q" [bigMsg]).1.map ChatRequest.user =
        [buildPrompt (pySliceLast (joinContext [bigMsg]) MAX_CONTEXT_LENGTH
          ++ TRUNCATION_MARKER) "q"]) ∧
    ((joinContext [mW]).data.length ≤ MAX_CONTEXT_LENGTH ∧
      (answer_question true svcOkW "hi" [mW]).1.map ChatRequest.user =
        [buildPrompt (joinContext [mW]) "hi"]) := by
  have hbig : MAX_CONTEXT_LENGTH < (joinContext [bigMsg]).data.length := by
    rw [joinContext_bigMsg_len]
    norm_num [MAX_CONTEXT_LENGTH]
  have hsmall : (joinContext [mW]).data.length ≤ MAX_CONTEXT_LENGTH := by decide
  exact ⟨⟨hbig, (answer_question_truncation svcOkW "q" [bigMsg]).1 hbig⟩,
    ⟨hsmall, (answer_question_truncation svcOkW "hi" [mW]).2 hsmall⟩⟩

/-- Helper: two prompts whose embedded contexts start with different
characters are different strings. -/
theorem buildPrompt_ne_of_head (c1 c2 q : String) (a b : Char) (l1 l2 : List Char)
    (h1 : c1.data = a :: l1) (h2 : c2.data = b :: l2) (hab : a ≠ b) :
    buildPrompt c1 q ≠ buildPrompt c2 q := by
  intro heq
  have hdata := congrArg String.data heq
  simp only [buildPrompt, String.data_append, List.append_assoc] at hdata
  have hc := List.append_cancel_right (List.append_cancel_left hdata)
  rw [h1, h2] at hc
  injection hc with hh _
  exact hab hh

/-- C1 (counterexample): on a 100 022-character context the prompt actually
submitted carries the marker *after* the kept 100 000 characters, and that
prompt differs from the one the claim describes (marker placed before the
kept characters). -/
theorem answer_question_marker_counterexample :
    (answer_question true svcOkW "q" [bigMsg]).1.map ChatRequest.user =
      [buildPrompt (pySliceLast (joinContext [bigMsg]) MAX_CONTEXT_LENGTH
        ++ TRUNCATION_MARKER) "q"] ∧
    buildPrompt (pySliceLast (joinContext [bigMsg]) MAX_CONTEXT_LENGTH
        ++ TRUNCATION_MARKER) "q" ≠
      buildPrompt (TRUNCATION_MARKER
        ++ pySliceLast (joinContext [bigMsg]) MAX_CONTEXT_LENGTH) "q" := by
  have hbig : MAX_CONTEXT_LENGTH < (joinContext [bigMsg]).data.length := by
    rw [joinContext_bigMsg_len]
    norm_num [MAX_CONTEXT_LENGTH]
  constructor
  · rw [answer_question_user, truncateContext_long _ hbig]
  · refine buildPrompt_ne_of_head _ _ "q" 'x' '\n'
      (List.replicate 99999 'x' ++ TRUNCATION_MARKER.data)
      ("\n[Earlier messages truncated...]".data
        ++ (pySliceLast (joinContext [bigMsg]) MAX_CONTEXT_LENGTH).data) ?_ ?_ (by decide)
    · rw [String.data_append, kept_bigMsg_data,
        show (100000 : Nat) = 99999 + 1 from rfl, List.replicate_succ,
        List.cons_append]
    · rw [String.data_append,
        show TRUNCATION_MARKER.data =
          '\n' :: "\n[Earlier messages truncated...]".data from rfl,
        List.cons_append]

end MemberQA
